import Mathlib

/-!
# Session-management disconnect handlers of the eRPC endpoint

A shallow embedding of `src/rpc_impl/rpc_disconnect_handlers.cc`
(`Rpc<TTr>::handle_disconnect_req_st` and `Rpc<TTr>::handle_disconnect_resp_st`)
together with the properties of the disconnect half of the session protocol.

Conventions of the embedding.

* The endpoint is the record `Rpc`; a handler maps an endpoint and its argument to
  an `Outcome`: a status and the endpoint as it stands when the handler stops.
* `assert(e)` is the debug-build assertion: when `e` is false the handler stops at
  once with status `fatal line`, where `line` is the source line of the assertion,
  and the endpoint is the one reached so far.
* A nullable pointer is an `Option`. A `Session *` taken from `session_vec` is the
  index of the table entry that owns the session, so reading and writing through the
  pointer reads and writes that entry.
* Threads are not part of the embedding: every handler runs in the creator thread,
  which is what `assert(in_creator())` (lines 18 and 65) demands.
* Log messages (`sprintf`, `erpc_dprintf`) have no effect on the endpoint and are
  left out.
-/

namespace ERpc

/-- The C type of the local variable `session_num` (lines 35 and 78); the
`session_num` field of an identity record is given the same width. -/
abbrev uint16_t := Fin 65536

/-- Packet types of the session-management protocol (`SessionMgmtPktType`). -/
inductive SessionMgmtPktType where
  | kConnectReq
  | kConnectResp
  | kDisconnectReq
  | kDisconnectResp
  deriving DecidableEq, Repr

/-- Error codes carried by a management packet (`SessionMgmtErrType`). The named
constructors are the enumerated codes; `outOfSet raw` is a wire value that is not
one of them. -/
inductive SessionMgmtErrType where
  | kNoError
  | kInvalidRemoteRpcId
  | kInvalidRemoteHostname
  | kInvalidRemoteSessionNum
  | kInvalidTransport
  | outOfSet (raw : Nat)
  deriving DecidableEq, Repr

/-- Modelled from the spec: `session_mgmt_err_type_is_valid` is declared outside the
source file; the spec calls the error codes an enumerated, closed set, so a code is
valid exactly when it is one of the enumerated ones. -/
def session_mgmt_err_type_is_valid : SessionMgmtErrType → Bool
  | .outOfSet _ => false
  | _ => true

/-- Events reported to the application (`SessionMgmtEventType`). -/
inductive SessionMgmtEventType where
  | kConnected
  | kConnectFailed
  | kDisconnected
  deriving DecidableEq, Repr

/-- Lifecycle states of a session (`SessionState`). -/
inductive SessionState where
  | kConnectInProgress
  | kConnected
  | kDisconnectInProgress
  | kDisconnected
  | kConnectError
  deriving DecidableEq, Repr

/-- The role of a session end point (`Session::Role`). -/
inductive Role where
  | kServer
  | kClient
  deriving DecidableEq, Repr

/-- Modelled from the spec: the identity record `SessionEndpoint` is declared outside
the source file; it holds the endpoint id, the host address, the session number and
the name, and `operator==` on it is equality of the whole record. -/
structure SessionEndpoint where
  rpc_id : Nat
  hostname : String
  session_num : uint16_t
  name : String
  deriving DecidableEq, Repr

/-- A management packet (`SessionMgmtPkt`). -/
structure SessionMgmtPkt where
  pkt_type : SessionMgmtPktType
  err_type : SessionMgmtErrType
  client : SessionEndpoint
  server : SessionEndpoint
  deriving DecidableEq, Repr

/-- A registered memory region (`Buffer`); `buf` is its address, `none` for nullptr. -/
structure Buffer where
  buf : Option Nat
  deriving DecidableEq, Repr

/-- A message buffer (`MsgBuffer`): the backing `buffer`, the address `buf` of the
message data, the number of packets of the message and how many of them have been
queued for transmission. -/
structure MsgBuffer where
  buffer : Buffer
  buf : Option Nat
  num_pkts : Nat
  pkts_queued : Nat
  deriving DecidableEq, Repr

/-- A request slot (`SSlot`): the inward buffer is held by value, the outward buffer
through a nullable pointer. -/
structure SSlot where
  rx_msgbuf : MsgBuffer
  tx_msgbuf : Option MsgBuffer
  deriving DecidableEq, Repr

/-- The client-only part of a session (`session->client_info`). -/
structure ClientInfo where
  sm_api_req_pending : Bool
  sm_callbacks_disabled : Bool
  deriving DecidableEq, Repr

/-- A session (`Session`). The parameter is `Session::kSessionReqWindow`, the length
of the slot array, whose value is fixed outside the source file. -/
structure Session (kSessionReqWindow : Nat) where
  role : Role
  state : SessionState
  client : SessionEndpoint
  server : SessionEndpoint
  sslot_arr : Fin kSessionReqWindow → SSlot
  client_info : ClientInfo
  local_session_num : uint16_t

/-- The work item handed to the request handler (`Nexus<TTr>::SmWorkItem`): the
peer to answer to and the packet, both nullable pointers. -/
structure SmWorkItem where
  epeer : Option Nat
  sm_pkt : Option SessionMgmtPkt
  deriving DecidableEq, Repr

/-- One response handed to `enqueue_sm_resp`. `observed` is a ghost field: the
session table as it stood when the response was enqueued. -/
structure SmResp (kSessionReqWindow : Nat) where
  wi : SmWorkItem
  err_type : SessionMgmtErrType
  observed : List (Option (Session kSessionReqWindow))

/-- One invocation of the application callback `session_mgmt_handler`. `observed`
is a ghost field: the session table as it stood when the callback ran. -/
structure SmHandlerCall (kSessionReqWindow : Nat) where
  session_num : uint16_t
  sm_event_type : SessionMgmtEventType
  sm_err_type : SessionMgmtErrType
  context : Nat
  observed : List (Option (Session kSessionReqWindow))

/-- The endpoint (`Rpc<TTr>`): its id, the host name of its Nexus, the application
context, the session table (`none` is a nullptr entry), and the two outputs of the
handlers: the responses enqueued and the callback invocations, oldest first. -/
structure Rpc (kSessionReqWindow : Nat) where
  rpc_id : Nat
  hostname : String
  context : Nat
  session_vec : List (Option (Session kSessionReqWindow))
  sm_resp_queue : List (SmResp kSessionReqWindow)
  sm_handler_calls : List (SmHandlerCall kSessionReqWindow)

/-- How a handler stopped: it returned, or an assertion on the given source line
failed. -/
inductive Status where
  | ok
  | fatal (line : Nat)
  deriving DecidableEq, Repr

/-- The result of running a handler: the status and the endpoint at that point. -/
structure Outcome (kSessionReqWindow : Nat) where
  status : Status
  rpc : Rpc kSessionReqWindow

variable {kSessionReqWindow : Nat}

/-- The method `Session::is_server()`. -/
def Session.is_server (session : Session kSessionReqWindow) : Bool :=
  session.role == Role.kServer

/-- The method `Session::is_client()`. -/
def Session.is_client (session : Session kSessionReqWindow) : Bool :=
  session.role == Role.kClient

/-- Modelled from the spec: `enqueue_sm_resp` is defined outside the source file; it
synthesizes the response to the work item with the given error code and hands it to
the transport, which the embedding records at the end of `sm_resp_queue`. -/
def Rpc.enqueue_sm_resp (rpc : Rpc kSessionReqWindow) (wi : SmWorkItem)
    (err_type : SessionMgmtErrType) : Rpc kSessionReqWindow :=
  { rpc with sm_resp_queue := rpc.sm_resp_queue ++ [⟨wi, err_type, rpc.session_vec⟩] }

/-- Modelled from the spec: `session_mgmt_handler` is the application callback
`on_session_event(local_session_num, event, err_type, app_context)`; the embedding
records the invocation at the end of `sm_handler_calls`. -/
def Rpc.session_mgmt_handler (rpc : Rpc kSessionReqWindow) (session_num : uint16_t)
    (sm_event_type : SessionMgmtEventType) (sm_err_type : SessionMgmtErrType)
    (context : Nat) : Rpc kSessionReqWindow :=
  { rpc with
    sm_handler_calls :=
      rpc.sm_handler_calls ++
        [⟨session_num, sm_event_type, sm_err_type, context, rpc.session_vec⟩] }

/-- Modelled from the spec: `bury_session_st` is defined outside the source file; it
removes the session from the owning endpoint's session table, whose entry becomes
empty, and releases the slots. The argument is the session pointer, that is the
index of the table entry holding the session. -/
def Rpc.bury_session_st (rpc : Rpc kSessionReqWindow) (session : Nat) :
    Rpc kSessionReqWindow :=
  { rpc with session_vec := rpc.session_vec.set session none }

/-- A write through the session pointer: the table entry holding the session is
replaced by the updated session. -/
def Rpc.store_session (rpc : Rpc kSessionReqWindow) (session : Nat)
    (val : Session kSessionReqWindow) : Rpc kSessionReqWindow :=
  { rpc with session_vec := rpc.session_vec.set session (some val) }

/-- The body of the loop at lines 46-52 for one slot: `none` when both assertions
hold, otherwise the line of the assertion that fails. -/
def sslot_asserts (sslot : SSlot) : Option Nat :=
  if sslot.rx_msgbuf.buf = none ∧ sslot.rx_msgbuf.buffer.buf = none then
    match sslot.tx_msgbuf with
    | none => none
    | some tx_msgbuf =>
      if tx_msgbuf.pkts_queued = tx_msgbuf.num_pkts then none else some 51
  else some 47

/-- The loop at lines 45-53 over the slot indices still to visit, in order; it stops
at the first failing assertion. -/
def sslot_loop (session : Session kSessionReqWindow) :
    List (Fin kSessionReqWindow) → Option Nat
  | [] => none
  | i :: rest =>
    match sslot_asserts (session.sslot_arr i) with
    | some line => some line
    | none => sslot_loop session rest

/-- The handler `Rpc<TTr>::handle_disconnect_req_st` (lines 17-59). -/
def Rpc.handle_disconnect_req_st (rpc : Rpc kSessionReqWindow) (wi : Option SmWorkItem) :
    Outcome kSessionReqWindow :=
  match wi with
  | none => ⟨.fatal 19, rpc⟩
  | some w =>
    if w.epeer = none then ⟨.fatal 19, rpc⟩ else
    match w.sm_pkt with
    | none => ⟨.fatal 22, rpc⟩
    | some sm_pkt =>
      if sm_pkt.pkt_type ≠ SessionMgmtPktType.kDisconnectReq then ⟨.fatal 22, rpc⟩ else
      if sm_pkt.server.rpc_id ≠ rpc.rpc_id then ⟨.fatal 26, rpc⟩ else
      if sm_pkt.server.hostname ≠ rpc.hostname then ⟨.fatal 27, rpc⟩ else
      let session_num : Nat := sm_pkt.server.session_num.val
      if ¬ session_num < rpc.session_vec.length then ⟨.fatal 36, rpc⟩ else
      match rpc.session_vec.getD session_num none with
      | none => ⟨.fatal 39, rpc⟩
      | some session =>
        if ¬ session.is_server then ⟨.fatal 40, rpc⟩ else
        if session.server ≠ sm_pkt.server then ⟨.fatal 41, rpc⟩ else
        if session.client ≠ sm_pkt.client then ⟨.fatal 42, rpc⟩ else
        match sslot_loop session (List.finRange kSessionReqWindow) with
        | some line => ⟨.fatal line, rpc⟩
        | none =>
          let rpc1 := rpc.enqueue_sm_resp w SessionMgmtErrType.kNoError
          ⟨.ok, rpc1.bury_session_st session_num⟩

/-- The handler `Rpc<TTr>::handle_disconnect_resp_st` (lines 64-108). -/
def Rpc.handle_disconnect_resp_st (rpc : Rpc kSessionReqWindow)
    (sm_pkt : Option SessionMgmtPkt) : Outcome kSessionReqWindow :=
  match sm_pkt with
  | none => ⟨.fatal 66, rpc⟩
  | some pkt =>
    if pkt.pkt_type ≠ SessionMgmtPktType.kDisconnectResp then ⟨.fatal 67, rpc⟩ else
    if ¬ session_mgmt_err_type_is_valid pkt.err_type then ⟨.fatal 68, rpc⟩ else
    let session_num : Nat := pkt.client.session_num.val
    if ¬ session_num < rpc.session_vec.length then ⟨.fatal 79, rpc⟩ else
    match rpc.session_vec.getD session_num none with
    | none => ⟨.fatal 82, rpc⟩
    | some session =>
      if ¬ session.is_client then ⟨.fatal 83, rpc⟩ else
      if session.state ≠ SessionState.kDisconnectInProgress then ⟨.fatal 84, rpc⟩ else
      if ¬ session.client_info.sm_api_req_pending then ⟨.fatal 85, rpc⟩ else
      if session.client ≠ pkt.client then ⟨.fatal 86, rpc⟩ else
      if session.server ≠ pkt.server then ⟨.fatal 87, rpc⟩ else
      if pkt.err_type ≠ SessionMgmtErrType.kNoError then ⟨.fatal 89, rpc⟩ else
      let session1 : Session kSessionReqWindow :=
        { session with client_info := { session.client_info with sm_api_req_pending := false } }
      let rpc1 := rpc.store_session session_num session1
      let session2 : Session kSessionReqWindow :=
        { session1 with state := SessionState.kDisconnected }
      let rpc2 := rpc1.store_session session_num session2
      let rpc3 :=
        if ¬ session2.client_info.sm_callbacks_disabled then
          rpc2.session_mgmt_handler session2.local_session_num
            SessionMgmtEventType.kDisconnected SessionMgmtErrType.kNoError rpc2.context
        else rpc2
      ⟨.ok, rpc3.bury_session_st session_num⟩

/-- Lines 91-107 of the response handler on their own, for the session found at
`session_num`: the part of the handler that follows its last assertion. -/
def Rpc.disconnect_resp_commit (rpc : Rpc kSessionReqWindow) (session_num : Nat)
    (session : Session kSessionReqWindow) : Outcome kSessionReqWindow :=
  let session1 : Session kSessionReqWindow :=
    { session with client_info := { session.client_info with sm_api_req_pending := false } }
  let rpc1 := rpc.store_session session_num session1
  let session2 : Session kSessionReqWindow :=
    { session1 with state := SessionState.kDisconnected }
  let rpc2 := rpc1.store_session session_num session2
  let rpc3 :=
    if ¬ session2.client_info.sm_callbacks_disabled then
      rpc2.session_mgmt_handler session2.local_session_num
        SessionMgmtEventType.kDisconnected SessionMgmtErrType.kNoError rpc2.context
    else rpc2
  ⟨.ok, rpc3.bury_session_st session_num⟩

/-! ## The checks of the handlers in the words of the spec -/

/-- The slot invariant of the spec: the inward buffer is empty and, when an outward
buffer exists, every packet of it has been queued. -/
def SlotIdle (sslot : SSlot) : Prop :=
  sslot.rx_msgbuf.buf = none ∧ sslot.rx_msgbuf.buffer.buf = none ∧
    ∀ tx_msgbuf ∈ sslot.tx_msgbuf, tx_msgbuf.pkts_queued = tx_msgbuf.num_pkts

instance : DecidablePred SlotIdle := fun sslot => by
  unfold SlotIdle
  infer_instance

/-- The session table holds the given session at the given number: the number is in
range and the entry is not empty. -/
def Rpc.session_at (rpc : Rpc kSessionReqWindow) (session_num : Nat)
    (session : Session kSessionReqWindow) : Prop :=
  rpc.session_vec[session_num]? = some (some session)

/-- The handler stopped on a failed assertion. -/
def Outcome.failed (out : Outcome kSessionReqWindow) : Prop :=
  ∃ line, out.status = Status.fatal line

/-- All checks of the request handler: the work item has a peer and a packet, the
packet is a disconnect request addressed to this endpoint, its server session number
names a server-role session with the identity records of the packet, and every slot
of that session is idle. -/
structure ReqAccepted (rpc : Rpc kSessionReqWindow) (w : SmWorkItem)
    (pkt : SessionMgmtPkt) (session : Session kSessionReqWindow) : Prop where
  epeer : w.epeer ≠ none
  sm_pkt : w.sm_pkt = some pkt
  pkt_type : pkt.pkt_type = SessionMgmtPktType.kDisconnectReq
  rpc_id : pkt.server.rpc_id = rpc.rpc_id
  hostname : pkt.server.hostname = rpc.hostname
  live : rpc.session_at pkt.server.session_num.val session
  role : session.role = Role.kServer
  server : session.server = pkt.server
  client : session.client = pkt.client
  idle : ∀ i, SlotIdle (session.sslot_arr i)

/-- All preconditions of the response handler: the packet is a disconnect response
without error, its client session number names a client-role session in state
`kDisconnectInProgress` with a pending management request and the identity records
of the packet. -/
structure RespAccepted (rpc : Rpc kSessionReqWindow) (pkt : SessionMgmtPkt)
    (session : Session kSessionReqWindow) : Prop where
  pkt_type : pkt.pkt_type = SessionMgmtPktType.kDisconnectResp
  err_type : pkt.err_type = SessionMgmtErrType.kNoError
  live : rpc.session_at pkt.client.session_num.val session
  role : session.role = Role.kClient
  state : session.state = SessionState.kDisconnectInProgress
  pending : session.client_info.sm_api_req_pending = true
  client : session.client = pkt.client
  server : session.server = pkt.server

/-- The session as the response handler leaves it before the callback: pending flag
cleared (line 91) and state `kDisconnected` (line 93). -/
def Session.disconnected (session : Session kSessionReqWindow) :
    Session kSessionReqWindow :=
  { session with
    client_info := { session.client_info with sm_api_req_pending := false }
    state := SessionState.kDisconnected }

/-! ## Concrete endpoints -/

/-- A client identity record. -/
def exClient : SessionEndpoint := ⟨7, "C", 2, "client"⟩

/-- A server identity record. -/
def exServer : SessionEndpoint := ⟨3, "S", 1, "server"⟩

/-- A slot whose outward buffer is fully queued and whose inward buffer is empty. -/
def exIdleSlot : SSlot := ⟨⟨⟨none⟩, none, 0, 0⟩, some ⟨⟨some 64⟩, some 64, 2, 2⟩⟩

/-- A slot whose outward buffer has one of its two packets still to be queued. -/
def exBusySlot : SSlot := ⟨⟨⟨none⟩, none, 0, 0⟩, some ⟨⟨some 64⟩, some 64, 2, 1⟩⟩

/-- An idle server-role session with two slots. -/
def exServerSession : Session 2 :=
  ⟨Role.kServer, SessionState.kConnected, exClient, exServer, fun _ => exIdleSlot,
    ⟨false, false⟩, 1⟩

/-- The same session with a partially queued outward buffer in slot 1. -/
def exBusySession : Session 2 :=
  ⟨Role.kServer, SessionState.kConnected, exClient, exServer,
    fun i => if i = 1 then exBusySlot else exIdleSlot, ⟨false, false⟩, 1⟩

/-- A server endpoint whose session 1 is idle. -/
def exServerRpc : Rpc 2 := ⟨3, "S", 99, [none, some exServerSession], [], []⟩

/-- A server endpoint whose session 1 is not idle. -/
def exBusyRpc : Rpc 2 := ⟨3, "S", 99, [none, some exBusySession], [], []⟩

/-- The disconnect request of the client of session 1. -/
def exReqPkt : SessionMgmtPkt :=
  ⟨SessionMgmtPktType.kDisconnectReq, SessionMgmtErrType.kNoError, exClient, exServer⟩

/-- The work item carrying `exReqPkt`. -/
def exReqWi : SmWorkItem := ⟨some 1, some exReqPkt⟩

/-- A client-role session waiting for the answer to its disconnect request. -/
def exClientSession : Session 2 :=
  ⟨Role.kClient, SessionState.kDisconnectInProgress, exClient, exServer,
    fun _ => exIdleSlot, ⟨true, false⟩, 2⟩

/-- The same session with callbacks disabled. -/
def exQuietSession : Session 2 :=
  ⟨Role.kClient, SessionState.kDisconnectInProgress, exClient, exServer,
    fun _ => exIdleSlot, ⟨true, true⟩, 2⟩

/-- A client endpoint whose session 2 is `exClientSession`. -/
def exClientRpc : Rpc 2 := ⟨7, "C", 42, [none, none, some exClientSession], [], []⟩

/-- A client endpoint whose session 2 is `exQuietSession`. -/
def exQuietRpc : Rpc 2 := ⟨7, "C", 42, [none, none, some exQuietSession], [], []⟩

/-- The disconnect response of the server of session 2. -/
def exRespPkt : SessionMgmtPkt :=
  ⟨SessionMgmtPktType.kDisconnectResp, SessionMgmtErrType.kNoError, exClient, exServer⟩

/-- A disconnect request for session 1 whose client record is not the one the
session has recorded. -/
def exForgedReqPkt : SessionMgmtPkt :=
  ⟨SessionMgmtPktType.kDisconnectReq, SessionMgmtErrType.kNoError,
    ⟨8, "X", 2, "intruder"⟩, exServer⟩

/-- A disconnect response for session 2 whose server record is not the one the
session has recorded. -/
def exForgedRespPkt : SessionMgmtPkt :=
  ⟨SessionMgmtPktType.kDisconnectResp, SessionMgmtErrType.kNoError, exClient,
    ⟨4, "S", 1, "server"⟩⟩

/-- A disconnect response for session 2 that carries a rejection code. -/
def exRejectedRespPkt : SessionMgmtPkt :=
  ⟨SessionMgmtPktType.kDisconnectResp, SessionMgmtErrType.kInvalidTransport, exClient,
    exServer⟩

/-- A disconnect response for session 2 that carries a code outside the enumerated
set. -/
def exGarbledRespPkt : SessionMgmtPkt :=
  ⟨SessionMgmtPktType.kDisconnectResp, SessionMgmtErrType.outOfSet 77, exClient, exServer⟩

/-- A client-role session still connecting. -/
def exConnectingSession : Session 2 :=
  ⟨Role.kClient, SessionState.kConnectInProgress, exClient, exServer,
    fun _ => exIdleSlot, ⟨true, false⟩, 2⟩

/-- A client endpoint whose session 2 is `exConnectingSession`. -/
def exConnectingRpc : Rpc 2 :=
  ⟨7, "C", 42, [none, none, some exConnectingSession], [], []⟩

/-- A disconnect request sent to the client endpoint, naming its session 2. -/
def exClientRoleReqPkt : SessionMgmtPkt :=
  ⟨SessionMgmtPktType.kDisconnectReq, SessionMgmtErrType.kNoError, exClient,
    ⟨7, "C", 2, "client"⟩⟩

/-- A disconnect request naming session 9 of the server endpoint, beyond its table. -/
def exOutOfRangeReqPkt : SessionMgmtPkt :=
  ⟨SessionMgmtPktType.kDisconnectReq, SessionMgmtErrType.kNoError, exClient,
    ⟨3, "S", 9, "server"⟩⟩

/-- A disconnect request naming session 0 of the server endpoint, an empty entry. -/
def exEmptyEntryReqPkt : SessionMgmtPkt :=
  ⟨SessionMgmtPktType.kDisconnectReq, SessionMgmtErrType.kNoError, exClient,
    ⟨3, "S", 0, "server"⟩⟩

/-- An endpoint with id 4 on host "S" that holds `exServerSession`, whose recorded
server identity names endpoint 3. -/
def exOtherIdRpc : Rpc 2 := ⟨4, "S", 99, [none, some exServerSession], [], []⟩

/-- An endpoint with id 3 on host "T" that holds `exServerSession`, whose recorded
server identity names host "S". -/
def exOtherHostRpc : Rpc 2 := ⟨3, "T", 99, [none, some exServerSession], [], []⟩

/-! ## Lemmas on the handlers -/

theorem status_ne_ok_iff (s : Status) : s ≠ Status.ok ↔ ∃ line, s = Status.fatal line := by
  cases s with
  | ok => simp
  | fatal line => simp

theorem session_at_iff (rpc : Rpc kSessionReqWindow) (n : Nat)
    (session : Session kSessionReqWindow) :
    rpc.session_at n session ↔
      n < rpc.session_vec.length ∧ rpc.session_vec.getD n none = some session := by
  unfold Rpc.session_at
  constructor
  · intro h
    have hlt : n < rpc.session_vec.length := by
      by_contra hge
      rw [List.getElem?_eq_none (Nat.le_of_not_lt hge)] at h
      cases h
    refine ⟨hlt, ?_⟩
    rw [List.getD_eq_getElem?_getD, h]
    rfl
  · rintro ⟨hlt, hget⟩
    rw [List.getD_eq_getElem?_getD, List.getElem?_eq_getElem hlt] at hget
    rw [List.getElem?_eq_getElem hlt]
    simpa using hget

theorem session_at_unique {rpc : Rpc kSessionReqWindow} {n : Nat}
    {s t : Session kSessionReqWindow} (hs : rpc.session_at n s)
    (ht : rpc.session_at n t) : s = t := by
  unfold Rpc.session_at at hs ht
  rw [hs] at ht
  exact Option.some.inj (Option.some.inj ht)

theorem sslot_asserts_eq_none_iff (sslot : SSlot) :
    sslot_asserts sslot = none ↔ SlotIdle sslot := by
  unfold sslot_asserts SlotIdle
  by_cases hrx : sslot.rx_msgbuf.buf = none ∧ sslot.rx_msgbuf.buffer.buf = none
  · rw [if_pos hrx]
    cases htx : sslot.tx_msgbuf with
    | none => simp [hrx]
    | some tx =>
      by_cases hq : tx.pkts_queued = tx.num_pkts
      · simp [hrx, hq]
      · simp [hrx, hq]
  · rw [if_neg hrx]
    constructor
    · intro h
      cases h
    · intro h
      exact absurd ⟨h.1, h.2.1⟩ hrx

theorem sslot_loop_eq_none_iff (session : Session kSessionReqWindow)
    (l : List (Fin kSessionReqWindow)) :
    sslot_loop session l = none ↔ ∀ i ∈ l, SlotIdle (session.sslot_arr i) := by
  induction l with
  | nil => simp [sslot_loop]
  | cons i rest ih =>
    unfold sslot_loop
    cases hi : sslot_asserts (session.sslot_arr i) with
    | none =>
      have hidle := (sslot_asserts_eq_none_iff _).mp hi
      simp [ih, hidle]
    | some line =>
      have hbusy : ¬ SlotIdle (session.sslot_arr i) := by
        intro h
        rw [(sslot_asserts_eq_none_iff _).mpr h] at hi
        cases hi
      simp [hbusy]

theorem sslot_loop_finRange (session : Session kSessionReqWindow) :
    sslot_loop session (List.finRange kSessionReqWindow) = none ↔
      ∀ i, SlotIdle (session.sslot_arr i) := by
  rw [sslot_loop_eq_none_iff]
  simp [List.mem_finRange]

/-- When all checks hold the request handler returns, having enqueued the response
and then buried the session. -/
theorem req_accepted_run {rpc : Rpc kSessionReqWindow} {w : SmWorkItem}
    {pkt : SessionMgmtPkt} {session : Session kSessionReqWindow}
    (h : ReqAccepted rpc w pkt session) :
    rpc.handle_disconnect_req_st (some w) =
      ⟨Status.ok, (rpc.enqueue_sm_resp w SessionMgmtErrType.kNoError).bury_session_st
        pkt.server.session_num.val⟩ := by
  obtain ⟨hlt, hget⟩ := (session_at_iff _ _ _).mp h.live
  have hloop := (sslot_loop_finRange session).mpr h.idle
  have hidx : rpc.session_vec[pkt.server.session_num.val] = some session := by
    rw [List.getD_eq_getElem?_getD, List.getElem?_eq_getElem hlt] at hget
    simpa using hget
  simp [Rpc.handle_disconnect_req_st, h.epeer, h.sm_pkt, h.pkt_type, h.rpc_id, h.hostname,
    hlt, hidx, Session.is_server, h.role, h.server, h.client, hloop]

/-- The request handler returns only when all its checks hold. -/
theorem req_ok_inv {rpc : Rpc kSessionReqWindow} {wi : Option SmWorkItem}
    (h : (rpc.handle_disconnect_req_st wi).status = Status.ok) :
    ∃ w pkt session, wi = some w ∧ ReqAccepted rpc w pkt session := by
  unfold Rpc.handle_disconnect_req_st at h
  split at h
  · cases h
  · rename_i w
    split at h
    · cases h
    · rename_i hepeer
      split at h
      · cases h
      · rename_i pkt hpkt
        simp only [] at h
        split at h
        · cases h
        · rename_i htype
          split at h
          · cases h
          · rename_i hid
            split at h
            · cases h
            · rename_i hhost
              split at h
              · cases h
              · rename_i hlt
                split at h
                · cases h
                · rename_i session hget
                  split at h
                  · cases h
                  · rename_i hrole
                    split at h
                    · cases h
                    · rename_i hserver
                      split at h
                      · cases h
                      · rename_i hclient
                        split at h
                        · cases h
                        · rename_i hloop
                          refine ⟨w, pkt, session, rfl, ?_⟩
                          exact
                            { epeer := hepeer
                              sm_pkt := hpkt
                              pkt_type := by simpa using htype
                              rpc_id := by simpa using hid
                              hostname := by simpa using hhost
                              live := (session_at_iff _ _ _).mpr ⟨by simpa using hlt, hget⟩
                              role := by simpa [Session.is_server] using hrole
                              server := by simpa using hserver
                              client := by simpa using hclient
                              idle := (sslot_loop_finRange session).mp hloop }

/-- Every assertion of the request handler precedes its first write: when the
handler does not return, the endpoint is the one it started from. -/
theorem req_fatal_frame (rpc : Rpc kSessionReqWindow) (wi : Option SmWorkItem) :
    (rpc.handle_disconnect_req_st wi).status = Status.ok ∨
      (rpc.handle_disconnect_req_st wi).rpc = rpc := by
  unfold Rpc.handle_disconnect_req_st
  repeat' (first | split | dsimp only)
  all_goals first | exact Or.inr rfl | exact Or.inl rfl

theorem req_not_ok_unchanged {rpc : Rpc kSessionReqWindow} {wi : Option SmWorkItem}
    (h : (rpc.handle_disconnect_req_st wi).status ≠ Status.ok) :
    (rpc.handle_disconnect_req_st wi).failed ∧ (rpc.handle_disconnect_req_st wi).rpc = rpc :=
  ⟨(status_ne_ok_iff _).mp h, (req_fatal_frame rpc wi).resolve_left h⟩

/-- The response handler written with `disconnect_resp_commit` for its last part. -/
theorem handle_disconnect_resp_st_eq (rpc : Rpc kSessionReqWindow)
    (sm_pkt : Option SessionMgmtPkt) :
    rpc.handle_disconnect_resp_st sm_pkt =
      match sm_pkt with
      | none => ⟨Status.fatal 66, rpc⟩
      | some pkt =>
        if pkt.pkt_type ≠ SessionMgmtPktType.kDisconnectResp then ⟨Status.fatal 67, rpc⟩ else
        if ¬ session_mgmt_err_type_is_valid pkt.err_type then ⟨Status.fatal 68, rpc⟩ else
        if ¬ pkt.client.session_num.val < rpc.session_vec.length then
          ⟨Status.fatal 79, rpc⟩ else
        match rpc.session_vec.getD pkt.client.session_num.val none with
        | none => ⟨Status.fatal 82, rpc⟩
        | some session =>
          if ¬ session.is_client then ⟨Status.fatal 83, rpc⟩ else
          if session.state ≠ SessionState.kDisconnectInProgress then
            ⟨Status.fatal 84, rpc⟩ else
          if ¬ session.client_info.sm_api_req_pending then ⟨Status.fatal 85, rpc⟩ else
          if session.client ≠ pkt.client then ⟨Status.fatal 86, rpc⟩ else
          if session.server ≠ pkt.server then ⟨Status.fatal 87, rpc⟩ else
          if pkt.err_type ≠ SessionMgmtErrType.kNoError then ⟨Status.fatal 89, rpc⟩ else
          rpc.disconnect_resp_commit pkt.client.session_num.val session := by
  cases sm_pkt with
  | none => rfl
  | some pkt => rfl

/-- The last part of the response handler: the session is stored with the pending
flag cleared and state `kDisconnected`, the callback runs unless it is disabled, and
the session is buried. -/
theorem disconnect_resp_commit_eq (rpc : Rpc kSessionReqWindow) (n : Nat)
    (session : Session kSessionReqWindow) :
    rpc.disconnect_resp_commit n session =
      ⟨Status.ok,
        (if session.client_info.sm_callbacks_disabled = true then
          rpc.store_session n session.disconnected
        else
          (rpc.store_session n session.disconnected).session_mgmt_handler
            session.local_session_num SessionMgmtEventType.kDisconnected
            SessionMgmtErrType.kNoError rpc.context).bury_session_st n⟩ := by
  cases hd : session.client_info.sm_callbacks_disabled <;>
    simp [Rpc.disconnect_resp_commit, Rpc.store_session, Session.disconnected, hd,
      List.set_set]

/-- When all preconditions hold the response handler runs its last part. -/
theorem resp_accepted_run {rpc : Rpc kSessionReqWindow} {pkt : SessionMgmtPkt}
    {session : Session kSessionReqWindow} (h : RespAccepted rpc pkt session) :
    rpc.handle_disconnect_resp_st (some pkt) =
      rpc.disconnect_resp_commit pkt.client.session_num.val session := by
  obtain ⟨hlt, hget⟩ := (session_at_iff _ _ _).mp h.live
  have hvalid : session_mgmt_err_type_is_valid SessionMgmtErrType.kNoError = true := rfl
  have hrole : session.is_client = true := by
    simp [Session.is_client, h.role]
  rw [handle_disconnect_resp_st_eq]
  simp only [h.pkt_type, ne_eq, not_true_eq_false, if_false, hvalid, hlt, hget, hrole,
    h.state, h.pending, h.client, h.server, h.err_type]

/-- The response handler returns only when all its preconditions hold. -/
theorem resp_ok_inv {rpc : Rpc kSessionReqWindow} {sm_pkt : Option SessionMgmtPkt}
    (h : (rpc.handle_disconnect_resp_st sm_pkt).status = Status.ok) :
    ∃ pkt session, sm_pkt = some pkt ∧ RespAccepted rpc pkt session := by
  rw [handle_disconnect_resp_st_eq] at h
  split at h
  · cases h
  · rename_i pkt
    split at h
    · cases h
    · rename_i htype
      split at h
      · cases h
      · split at h
        · cases h
        · rename_i hlt
          split at h
          · cases h
          · rename_i session hget
            split at h
            · cases h
            · rename_i hrole
              split at h
              · cases h
              · rename_i hstate
                split at h
                · cases h
                · rename_i hpending
                  split at h
                  · cases h
                  · rename_i hclient
                    split at h
                    · cases h
                    · rename_i hserver
                      split at h
                      · cases h
                      · rename_i herr
                        refine ⟨pkt, session, rfl, ?_⟩
                        exact
                          { pkt_type := by simpa using htype
                            err_type := by simpa using herr
                            live := (session_at_iff _ _ _).mpr ⟨by simpa using hlt, hget⟩
                            role := by simpa [Session.is_client] using hrole
                            state := by simpa using hstate
                            pending := by simpa using hpending
                            client := by simpa using hclient
                            server := by simpa using hserver }

/-- Every assertion of the response handler precedes its first write: when the
handler does not return, the endpoint is the one it started from. -/
theorem resp_fatal_frame (rpc : Rpc kSessionReqWindow) (sm_pkt : Option SessionMgmtPkt) :
    (rpc.handle_disconnect_resp_st sm_pkt).status = Status.ok ∨
      (rpc.handle_disconnect_resp_st sm_pkt).rpc = rpc := by
  rw [handle_disconnect_resp_st_eq]
  repeat' split
  all_goals first | exact Or.inr rfl | exact Or.inl rfl

theorem resp_not_ok_unchanged {rpc : Rpc kSessionReqWindow}
    {sm_pkt : Option SessionMgmtPkt}
    (h : (rpc.handle_disconnect_resp_st sm_pkt).status ≠ Status.ok) :
    (rpc.handle_disconnect_resp_st sm_pkt).failed ∧
      (rpc.handle_disconnect_resp_st sm_pkt).rpc = rpc :=
  ⟨(status_ne_ok_iff _).mp h, (resp_fatal_frame rpc sm_pkt).resolve_left h⟩

/-- After the request handler has returned, a second run on the same work item stops
at the assertion of line 39 and changes nothing. -/
theorem req_second_run {rpc : Rpc kSessionReqWindow} {w : SmWorkItem}
    {pkt : SessionMgmtPkt} {session : Session kSessionReqWindow}
    (h : ReqAccepted rpc w pkt session) :
    ((rpc.handle_disconnect_req_st (some w)).rpc.handle_disconnect_req_st (some w)) =
      ⟨Status.fatal 39, (rpc.handle_disconnect_req_st (some w)).rpc⟩ := by
  have hlt := ((session_at_iff _ _ _).mp h.live).1
  rw [req_accepted_run h]
  simp [Rpc.handle_disconnect_req_st, Rpc.bury_session_st, Rpc.enqueue_sm_resp, h.epeer,
    h.sm_pkt, h.pkt_type, h.rpc_id, h.hostname, hlt]

/-- After the response handler has returned, a second run on the same packet stops at
the assertion of line 82 and changes nothing. -/
theorem resp_second_run {rpc : Rpc kSessionReqWindow} {pkt : SessionMgmtPkt}
    {session : Session kSessionReqWindow} (h : RespAccepted rpc pkt session) :
    ((rpc.handle_disconnect_resp_st (some pkt)).rpc.handle_disconnect_resp_st (some pkt)) =
      ⟨Status.fatal 82, (rpc.handle_disconnect_resp_st (some pkt)).rpc⟩ := by
  have hlt := ((session_at_iff _ _ _).mp h.live).1
  have hvalid : session_mgmt_err_type_is_valid SessionMgmtErrType.kNoError = true := rfl
  rw [resp_accepted_run h, disconnect_resp_commit_eq, handle_disconnect_resp_st_eq]
  cases hd : session.client_info.sm_callbacks_disabled <;>
    simp [Rpc.bury_session_st, Rpc.store_session, Rpc.session_mgmt_handler, h.pkt_type,
      h.err_type, hvalid, hlt]

/-- A request whose destination is not this endpoint stops the request handler at one
of the assertions of lines 19 to 27, whatever the session table holds. -/
theorem req_wrong_destination_run {rpc : Rpc kSessionReqWindow} {w : SmWorkItem}
    {pkt : SessionMgmtPkt} (hpkt : w.sm_pkt = some pkt)
    (hdst : pkt.server.rpc_id ≠ rpc.rpc_id ∨ pkt.server.hostname ≠ rpc.hostname) :
    rpc.handle_disconnect_req_st (some w) =
      ⟨Status.fatal
        (if w.epeer = none then 19
          else if pkt.pkt_type ≠ SessionMgmtPktType.kDisconnectReq then 22
          else if pkt.server.rpc_id ≠ rpc.rpc_id then 26 else 27), rpc⟩ := by
  by_cases hepeer : w.epeer = none
  · simp [Rpc.handle_disconnect_req_st, hepeer]
  · by_cases htype : pkt.pkt_type = SessionMgmtPktType.kDisconnectReq
    · by_cases hid : pkt.server.rpc_id = rpc.rpc_id
      · have hhost : pkt.server.hostname ≠ rpc.hostname := hdst.resolve_left (not_not.mpr hid)
        simp [Rpc.handle_disconnect_req_st, hepeer, hpkt, htype, hid, hhost]
      · simp [Rpc.handle_disconnect_req_st, hepeer, hpkt, htype, hid]
    · simp [Rpc.handle_disconnect_req_st, hepeer, hpkt, htype]

/-- The table after the request handler has returned. -/
theorem req_ok_table {rpc : Rpc kSessionReqWindow} {w : SmWorkItem}
    {pkt : SessionMgmtPkt} {session : Session kSessionReqWindow}
    (h : ReqAccepted rpc w pkt session) :
    (rpc.handle_disconnect_req_st (some w)).rpc.session_vec =
      rpc.session_vec.set pkt.server.session_num.val none := by
  rw [req_accepted_run h]
  rfl

/-- The table after the response handler has returned. -/
theorem resp_ok_table {rpc : Rpc kSessionReqWindow} {pkt : SessionMgmtPkt}
    {session : Session kSessionReqWindow} (h : RespAccepted rpc pkt session) :
    (rpc.handle_disconnect_resp_st (some pkt)).rpc.session_vec =
      rpc.session_vec.set pkt.client.session_num.val none := by
  rw [resp_accepted_run h, disconnect_resp_commit_eq]
  cases hd : session.client_info.sm_callbacks_disabled <;>
    simp [Rpc.bury_session_st, Rpc.store_session, Rpc.session_mgmt_handler, List.set_set]

/-- The callback invocations after the response handler has returned. -/
theorem resp_ok_calls {rpc : Rpc kSessionReqWindow} {pkt : SessionMgmtPkt}
    {session : Session kSessionReqWindow} (h : RespAccepted rpc pkt session) :
    (rpc.handle_disconnect_resp_st (some pkt)).rpc.sm_handler_calls =
      rpc.sm_handler_calls ++
        (if session.client_info.sm_callbacks_disabled = true then []
        else [⟨session.local_session_num, SessionMgmtEventType.kDisconnected,
          SessionMgmtErrType.kNoError, rpc.context,
          rpc.session_vec.set pkt.client.session_num.val (some session.disconnected)⟩]) := by
  rw [resp_accepted_run h, disconnect_resp_commit_eq]
  cases hd : session.client_info.sm_callbacks_disabled <;>
    simp [Rpc.bury_session_st, Rpc.store_session, Rpc.session_mgmt_handler]

/-- Emptying one entry of a table keeps its length and every other entry. -/
theorem set_none_frame {α : Type} (l : List (Option α)) {n : Nat} (hlt : n < l.length) :
    (l.set n none).length = l.length ∧ (l.set n none)[n]? = some none ∧
      ∀ i, i ≠ n → (l.set n none)[i]? = l[i]? := by
  refine ⟨List.length_set l n none, List.getElem?_set_self hlt, ?_⟩
  intro i hi
  exact List.getElem?_set_ne (Ne.symm hi)

/-! ## The claims -/

/-- C1, idle before teardown. The request handler returns exactly when it has gone
through `bury_session_st`, its last statement. Whenever it does, the addressed
session exists and each of its `kSessionReqWindow` slots has an empty inward buffer
and, where an outward buffer exists, `pkts_queued = num_pkts`. In particular, when
some slot of the addressed session has an outward buffer with
`pkts_queued ≠ num_pkts`, the handler stops on a failed assertion, the response
queue is as before and the session is still in the table. -/
theorem idle_before_teardown (rpc : Rpc kSessionReqWindow) (wi : Option SmWorkItem) :
    ((rpc.handle_disconnect_req_st wi).status = Status.ok →
      ∃ w pkt session, wi = some w ∧ w.sm_pkt = some pkt ∧
        rpc.session_at pkt.server.session_num.val session ∧
        ∀ i, SlotIdle (session.sslot_arr i)) ∧
    (∀ w pkt session i tx_msgbuf, wi = some w → w.sm_pkt = some pkt →
      rpc.session_at pkt.server.session_num.val session →
      (session.sslot_arr i).tx_msgbuf = some tx_msgbuf →
      tx_msgbuf.pkts_queued ≠ tx_msgbuf.num_pkts →
      (rpc.handle_disconnect_req_st wi).failed ∧
      (rpc.handle_disconnect_req_st wi).rpc.sm_resp_queue = rpc.sm_resp_queue ∧
      (rpc.handle_disconnect_req_st wi).rpc.session_vec = rpc.session_vec ∧
      (rpc.handle_disconnect_req_st wi).rpc.session_at pkt.server.session_num.val
        session) := by
  constructor
  · intro hok
    obtain ⟨w, pkt, session, hwi, hacc⟩ := req_ok_inv hok
    exact ⟨w, pkt, session, hwi, hacc.sm_pkt, hacc.live, hacc.idle⟩
  · intro w pkt session i tx_msgbuf hwi hpkt hlive htx hne
    have hnot : (rpc.handle_disconnect_req_st wi).status ≠ Status.ok := by
      intro hok
      obtain ⟨w1, pkt1, session1, hwi1, hacc⟩ := req_ok_inv hok
      rw [hwi] at hwi1
      cases hwi1
      have hp := hacc.sm_pkt
      rw [hpkt] at hp
      cases hp
      have hs := session_at_unique hlive hacc.live
      subst hs
      exact hne ((hacc.idle i).2.2 tx_msgbuf htx)
    obtain ⟨hfail, hrpc⟩ := req_not_ok_unchanged hnot
    refine ⟨hfail, ?_, ?_, ?_⟩
    · rw [hrpc]
    · rw [hrpc]
    · rw [hrpc]
      exact hlive

/-- Witness of C1: the endpoint `exBusyRpc`, whose session 1 has one packet of two
still to be queued in slot 1, refuses the disconnect request. -/
theorem idle_before_teardown_witness :
    ((exServerRpc.handle_disconnect_req_st (some exReqWi)).status = Status.ok ∧
      ∃ w pkt session, some exReqWi = some w ∧ w.sm_pkt = some pkt ∧
        exServerRpc.session_at pkt.server.session_num.val session ∧
        ∀ i, SlotIdle (session.sslot_arr i)) ∧
    exBusyRpc.session_at exReqPkt.server.session_num.val exBusySession ∧
    (exBusySession.sslot_arr 1).tx_msgbuf = some ⟨⟨some 64⟩, some 64, 2, 1⟩ ∧
    (exBusyRpc.handle_disconnect_req_st (some exReqWi)).failed ∧
    (exBusyRpc.handle_disconnect_req_st (some exReqWi)).rpc.sm_resp_queue =
      exBusyRpc.sm_resp_queue ∧
    (exBusyRpc.handle_disconnect_req_st (some exReqWi)).rpc.session_vec =
      exBusyRpc.session_vec ∧
    (exBusyRpc.handle_disconnect_req_st (some exReqWi)).rpc.session_at
      exReqPkt.server.session_num.val exBusySession :=
  ⟨⟨rfl, (idle_before_teardown exServerRpc (some exReqWi)).1 rfl⟩, rfl, rfl,
    (idle_before_teardown exBusyRpc (some exReqWi)).2 exReqWi exReqPkt exBusySession 1
      ⟨⟨some 64⟩, some 64, 2, 1⟩ rfl rfl rfl rfl (by decide)⟩

/-- C2, identity binding. When the session number of a disconnect packet names a live
session whose recorded client or server identity differs from the packet's, the
handler of the packet stops on a failed assertion and the endpoint is exactly as
before: same table (so same state and pending flag of the session), same response
queue, same callback invocations. The first part is the request handler, for any work
item carrying the packet; the second is the response handler. -/
theorem identity_binding (rpc : Rpc kSessionReqWindow) (pkt : SessionMgmtPkt)
    (session : Session kSessionReqWindow)
    (hmis : session.client ≠ pkt.client ∨ session.server ≠ pkt.server) :
    (∀ w : SmWorkItem, w.sm_pkt = some pkt →
      rpc.session_at pkt.server.session_num.val session →
      (rpc.handle_disconnect_req_st (some w)).failed ∧
        (rpc.handle_disconnect_req_st (some w)).rpc = rpc) ∧
    (rpc.session_at pkt.client.session_num.val session →
      (rpc.handle_disconnect_resp_st (some pkt)).failed ∧
        (rpc.handle_disconnect_resp_st (some pkt)).rpc = rpc) := by
  constructor
  · intro w hpkt hlive
    apply req_not_ok_unchanged
    intro hok
    obtain ⟨w1, pkt1, session1, hw, hacc⟩ := req_ok_inv hok
    cases hw
    have hp := hacc.sm_pkt
    rw [hpkt] at hp
    cases hp
    have hs := session_at_unique hlive hacc.live
    subst hs
    rcases hmis with hc | hsv
    · exact hc hacc.client
    · exact hsv hacc.server
  · intro hlive
    apply resp_not_ok_unchanged
    intro hok
    obtain ⟨pkt1, session1, hp, hacc⟩ := resp_ok_inv hok
    cases hp
    have hs := session_at_unique hlive hacc.live
    subst hs
    rcases hmis with hc | hsv
    · exact hc hacc.client
    · exact hsv hacc.server

/-- Witness of C2: a request with a foreign client record for the server session 1,
and a response with a foreign server record for the client session 2. -/
theorem identity_binding_witness :
    ((exServerSession.client ≠ exForgedReqPkt.client ∨
        exServerSession.server ≠ exForgedReqPkt.server) ∧
      exServerRpc.session_at exForgedReqPkt.server.session_num.val exServerSession ∧
      (exServerRpc.handle_disconnect_req_st (some ⟨some 1, some exForgedReqPkt⟩)).failed ∧
      (exServerRpc.handle_disconnect_req_st (some ⟨some 1, some exForgedReqPkt⟩)).rpc =
        exServerRpc) ∧
    ((exClientSession.client ≠ exForgedRespPkt.client ∨
        exClientSession.server ≠ exForgedRespPkt.server) ∧
      exClientRpc.session_at exForgedRespPkt.client.session_num.val exClientSession ∧
      (exClientRpc.handle_disconnect_resp_st (some exForgedRespPkt)).failed ∧
      (exClientRpc.handle_disconnect_resp_st (some exForgedRespPkt)).rpc = exClientRpc) :=
  ⟨⟨Or.inl (by decide), rfl,
      (identity_binding exServerRpc exForgedReqPkt exServerSession (Or.inl (by decide))).1
        ⟨some 1, some exForgedReqPkt⟩ rfl rfl⟩,
    ⟨Or.inr (by decide), rfl,
      (identity_binding exClientRpc exForgedRespPkt exClientSession (Or.inr (by decide))).2
        rfl⟩⟩

/-- C3, server-side disconnect success. When all checks of the request handler hold,
the handler returns; exactly one response has been added to the response queue, it
carries `kNoError` and was enqueued while the table was still the initial one (the
session present and never written); the session is then buried, so the table entry
at the packet's server session number is empty; no callback has run. -/
theorem server_disconnect_success (rpc : Rpc kSessionReqWindow) (w : SmWorkItem)
    (pkt : SessionMgmtPkt) (session : Session kSessionReqWindow)
    (h : ReqAccepted rpc w pkt session) :
    (rpc.handle_disconnect_req_st (some w)).status = Status.ok ∧
    (rpc.handle_disconnect_req_st (some w)).rpc.sm_resp_queue =
      rpc.sm_resp_queue ++ [⟨w, SessionMgmtErrType.kNoError, rpc.session_vec⟩] ∧
    (rpc.handle_disconnect_req_st (some w)).rpc =
      (rpc.enqueue_sm_resp w SessionMgmtErrType.kNoError).bury_session_st
        pkt.server.session_num.val ∧
    (rpc.handle_disconnect_req_st (some w)).rpc.session_vec =
      rpc.session_vec.set pkt.server.session_num.val none ∧
    (rpc.handle_disconnect_req_st (some w)).rpc.session_vec[pkt.server.session_num.val]? =
      some none ∧
    (rpc.handle_disconnect_req_st (some w)).rpc.sm_handler_calls = rpc.sm_handler_calls := by
  have hlt := ((session_at_iff _ _ _).mp h.live).1
  rw [req_accepted_run h]
  refine ⟨rfl, rfl, rfl, rfl, ?_, rfl⟩
  exact List.getElem?_set_self hlt

/-- Witness of C3: the idle server session 1 of `exServerRpc` is disconnected. -/
theorem server_disconnect_success_witness :
    (exServerRpc.handle_disconnect_req_st (some exReqWi)).status = Status.ok ∧
    (exServerRpc.handle_disconnect_req_st (some exReqWi)).rpc.sm_resp_queue =
      exServerRpc.sm_resp_queue ++
        [⟨exReqWi, SessionMgmtErrType.kNoError, exServerRpc.session_vec⟩] ∧
    (exServerRpc.handle_disconnect_req_st (some exReqWi)).rpc =
      (exServerRpc.enqueue_sm_resp exReqWi SessionMgmtErrType.kNoError).bury_session_st
        exReqPkt.server.session_num.val ∧
    (exServerRpc.handle_disconnect_req_st (some exReqWi)).rpc.session_vec =
      exServerRpc.session_vec.set exReqPkt.server.session_num.val none ∧
    (exServerRpc.handle_disconnect_req_st (some exReqWi)).rpc.session_vec[
      exReqPkt.server.session_num.val]? = some none ∧
    (exServerRpc.handle_disconnect_req_st (some exReqWi)).rpc.sm_handler_calls =
      exServerRpc.sm_handler_calls :=
  server_disconnect_success exServerRpc exReqWi exReqPkt exServerSession
    { epeer := by decide
      sm_pkt := rfl
      pkt_type := rfl
      rpc_id := rfl
      hostname := rfl
      live := rfl
      role := rfl
      server := rfl
      client := rfl
      idle := fun _ => ⟨rfl, rfl, fun _ htx => by cases htx; rfl⟩ }

/-- C4, client-side disconnect success. When all preconditions of the response
handler hold, the handler returns; the endpoint it leaves is the initial one with the
session stored with its pending flag cleared and its state `kDisconnected`, then the
callback (if enabled), then the session buried, so the table entry at the packet's
client session number is empty. Every callback invocation added by the run saw a
table in which the session was still present, in state `kDisconnected` and with the
pending flag false. -/
theorem client_disconnect_success (rpc : Rpc kSessionReqWindow) (pkt : SessionMgmtPkt)
    (session : Session kSessionReqWindow) (h : RespAccepted rpc pkt session) :
    (rpc.handle_disconnect_resp_st (some pkt)).status = Status.ok ∧
    (rpc.handle_disconnect_resp_st (some pkt)).rpc =
      (if session.client_info.sm_callbacks_disabled = true then
        rpc.store_session pkt.client.session_num.val session.disconnected
      else
        (rpc.store_session pkt.client.session_num.val
          session.disconnected).session_mgmt_handler session.local_session_num
          SessionMgmtEventType.kDisconnected SessionMgmtErrType.kNoError
          rpc.context).bury_session_st pkt.client.session_num.val ∧
    session.disconnected.client_info.sm_api_req_pending = false ∧
    session.disconnected.state = SessionState.kDisconnected ∧
    (rpc.handle_disconnect_resp_st (some pkt)).rpc.session_vec =
      rpc.session_vec.set pkt.client.session_num.val none ∧
    (rpc.handle_disconnect_resp_st (some pkt)).rpc.session_vec[pkt.client.session_num.val]? =
      some none ∧
    ∃ calls, (rpc.handle_disconnect_resp_st (some pkt)).rpc.sm_handler_calls =
        rpc.sm_handler_calls ++ calls ∧
      ∀ call ∈ calls, call.observed[pkt.client.session_num.val]? =
        some (some session.disconnected) := by
  have hlt := ((session_at_iff _ _ _).mp h.live).1
  rw [resp_accepted_run h, disconnect_resp_commit_eq]
  refine ⟨rfl, rfl, rfl, rfl, ?_, ?_, ?_⟩
  · cases hd : session.client_info.sm_callbacks_disabled <;>
      simp [Rpc.bury_session_st, Rpc.store_session, Rpc.session_mgmt_handler, List.set_set]
  · cases hd : session.client_info.sm_callbacks_disabled <;>
      simp [Rpc.bury_session_st, Rpc.store_session, Rpc.session_mgmt_handler, hlt]
  · cases hd : session.client_info.sm_callbacks_disabled
    · refine ⟨[⟨session.local_session_num, SessionMgmtEventType.kDisconnected,
        SessionMgmtErrType.kNoError, rpc.context,
        rpc.session_vec.set pkt.client.session_num.val (some session.disconnected)⟩], ?_, ?_⟩
      · simp [Rpc.bury_session_st, Rpc.store_session, Rpc.session_mgmt_handler]
      · intro call hcall
        rw [List.mem_singleton] at hcall
        subst hcall
        exact List.getElem?_set_self hlt
    · refine ⟨[], ?_, ?_⟩
      · simp [Rpc.bury_session_st, Rpc.store_session]
      · intro call hcall
        cases hcall

/-- Witness of C4: the client session 2 of `exClientRpc` receives its disconnect
response. -/
theorem client_disconnect_success_witness :
    (exClientRpc.handle_disconnect_resp_st (some exRespPkt)).status = Status.ok ∧
    (exClientRpc.handle_disconnect_resp_st (some exRespPkt)).rpc.session_vec[
      exRespPkt.client.session_num.val]? = some none ∧
    ∃ calls, (exClientRpc.handle_disconnect_resp_st (some exRespPkt)).rpc.sm_handler_calls =
        exClientRpc.sm_handler_calls ++ calls ∧
      ∀ call ∈ calls, call.observed[exRespPkt.client.session_num.val]? =
        some (some exClientSession.disconnected) :=
  have h := client_disconnect_success exClientRpc exRespPkt exClientSession
    { pkt_type := rfl
      err_type := rfl
      live := rfl
      role := rfl
      state := rfl
      pending := rfl
      client := rfl
      server := rfl }
  ⟨h.1, h.2.2.2.2.2.1, h.2.2.2.2.2.2⟩

/-- C5, callback suppression. On every run of the response handler that returns, for
the session the packet addresses: when `sm_callbacks_disabled` is false exactly one
callback invocation is added, with the session's `local_session_num`, event
`kDisconnected`, error `kNoError` and the endpoint's context; when the flag is true
none is added; in both cases the session is buried. -/
theorem callback_suppression (rpc : Rpc kSessionReqWindow) (pkt : SessionMgmtPkt)
    (session : Session kSessionReqWindow)
    (hok : (rpc.handle_disconnect_resp_st (some pkt)).status = Status.ok)
    (hlive : rpc.session_at pkt.client.session_num.val session) :
    (session.client_info.sm_callbacks_disabled = false →
      (rpc.handle_disconnect_resp_st (some pkt)).rpc.sm_handler_calls =
        rpc.sm_handler_calls ++
          [⟨session.local_session_num, SessionMgmtEventType.kDisconnected,
            SessionMgmtErrType.kNoError, rpc.context,
            rpc.session_vec.set pkt.client.session_num.val
              (some session.disconnected)⟩]) ∧
    (session.client_info.sm_callbacks_disabled = true →
      (rpc.handle_disconnect_resp_st (some pkt)).rpc.sm_handler_calls =
        rpc.sm_handler_calls) ∧
    (rpc.handle_disconnect_resp_st (some pkt)).rpc.session_vec[pkt.client.session_num.val]? =
      some none := by
  obtain ⟨pkt1, session1, hp, hacc⟩ := resp_ok_inv hok
  cases hp
  have hs := session_at_unique hlive hacc.live
  subst hs
  have hlt := ((session_at_iff _ _ _).mp hlive).1
  rw [resp_accepted_run hacc, disconnect_resp_commit_eq]
  refine ⟨?_, ?_, ?_⟩
  · intro hd
    simp [hd, Rpc.bury_session_st, Rpc.store_session, Rpc.session_mgmt_handler]
  · intro hd
    simp [hd, Rpc.bury_session_st, Rpc.store_session]
  · cases hd : session.client_info.sm_callbacks_disabled <;>
      simp [Rpc.bury_session_st, Rpc.store_session, Rpc.session_mgmt_handler, hlt]

/-- Witness of C5: `exClientRpc` has callbacks enabled on session 2 and `exQuietRpc`
has them disabled. -/
theorem callback_suppression_witness :
    ((exClientRpc.handle_disconnect_resp_st (some exRespPkt)).status = Status.ok ∧
      exClientSession.client_info.sm_callbacks_disabled = false ∧
      (exClientRpc.handle_disconnect_resp_st (some exRespPkt)).rpc.sm_handler_calls =
        exClientRpc.sm_handler_calls ++
          [⟨exClientSession.local_session_num, SessionMgmtEventType.kDisconnected,
            SessionMgmtErrType.kNoError, exClientRpc.context,
            exClientRpc.session_vec.set exRespPkt.client.session_num.val
              (some exClientSession.disconnected)⟩]) ∧
    ((exQuietRpc.handle_disconnect_resp_st (some exRespPkt)).status = Status.ok ∧
      exQuietSession.client_info.sm_callbacks_disabled = true ∧
      (exQuietRpc.handle_disconnect_resp_st (some exRespPkt)).rpc.sm_handler_calls =
        exQuietRpc.sm_handler_calls ∧
      (exQuietRpc.handle_disconnect_resp_st (some exRespPkt)).rpc.session_vec[
        exRespPkt.client.session_num.val]? = some none) :=
  ⟨⟨rfl, rfl, (callback_suppression exClientRpc exRespPkt exClientSession rfl rfl).1 rfl⟩,
    ⟨rfl, rfl, (callback_suppression exQuietRpc exRespPkt exQuietSession rfl rfl).2.1 rfl,
      (callback_suppression exQuietRpc exRespPkt exQuietSession rfl rfl).2.2⟩⟩

/-- C6, disconnects cannot fail. A disconnect response whose `err_type` is not
`kNoError` makes the response handler stop on a failed assertion with the endpoint
exactly as before: no callback, same session state and pending flag, session still
in the table. When every other precondition holds the failing assertion is the one
at line 89 for an enumerated code and the one at line 68 for a code outside the
enumerated set. -/
theorem disconnect_cannot_fail (rpc : Rpc kSessionReqWindow) (pkt : SessionMgmtPkt)
    (herr : pkt.err_type ≠ SessionMgmtErrType.kNoError) :
    ((rpc.handle_disconnect_resp_st (some pkt)).failed ∧
      (rpc.handle_disconnect_resp_st (some pkt)).rpc = rpc) ∧
    ∀ session : Session kSessionReqWindow,
      pkt.pkt_type = SessionMgmtPktType.kDisconnectResp →
      rpc.session_at pkt.client.session_num.val session →
      session.role = Role.kClient →
      session.state = SessionState.kDisconnectInProgress →
      session.client_info.sm_api_req_pending = true →
      session.client = pkt.client → session.server = pkt.server →
      (rpc.handle_disconnect_resp_st (some pkt)).status =
        if session_mgmt_err_type_is_valid pkt.err_type = true then Status.fatal 89
        else Status.fatal 68 := by
  constructor
  · apply resp_not_ok_unchanged
    intro hok
    obtain ⟨pkt1, session1, hp, hacc⟩ := resp_ok_inv hok
    cases hp
    exact herr hacc.err_type
  · intro session htype hlive hrole hstate hpending hclient hserver
    obtain ⟨hlt, hget⟩ := (session_at_iff _ _ _).mp hlive
    have hcl : session.is_client = true := by
      simp [Session.is_client, hrole]
    rw [handle_disconnect_resp_st_eq]
    by_cases hvalid : session_mgmt_err_type_is_valid pkt.err_type = true
    · simp only [htype, ne_eq, not_true_eq_false, if_false, hvalid, hlt, hget, hcl,
        hstate, hpending, hclient, hserver, herr, not_false_eq_true, if_true]
    · simp [htype, hvalid]

/-- Witness of C6: session 2 of `exClientRpc` meets every other precondition; the
response carries `kInvalidTransport`. -/
theorem disconnect_cannot_fail_witness :
    exRejectedRespPkt.err_type ≠ SessionMgmtErrType.kNoError ∧
    ((exClientRpc.handle_disconnect_resp_st (some exRejectedRespPkt)).failed ∧
      (exClientRpc.handle_disconnect_resp_st (some exRejectedRespPkt)).rpc = exClientRpc) ∧
    (exClientRpc.handle_disconnect_resp_st (some exRejectedRespPkt)).status =
      Status.fatal 89 :=
  ⟨by decide, (disconnect_cannot_fail exClientRpc exRejectedRespPkt (by decide)).1,
    (disconnect_cannot_fail exClientRpc exRejectedRespPkt (by decide)).2 exClientSession
      rfl rfl rfl rfl rfl rfl rfl⟩

/-- C8, at-most-once teardown. When the response handler returns on a packet,
delivering the same packet to the resulting endpoint stops at the assertion of line 82
(the addressed entry is empty) and leaves that endpoint exactly as it is: no second
destruction, no second callback. When the request handler returns on a work item,
delivering the same work item again stops at the assertion of line 39 and leaves the
endpoint exactly as it is: no second response, no second destruction. -/
theorem at_most_once_teardown (rpc : Rpc kSessionReqWindow) :
    (∀ pkt : SessionMgmtPkt,
      (rpc.handle_disconnect_resp_st (some pkt)).status = Status.ok →
      ((rpc.handle_disconnect_resp_st (some pkt)).rpc.handle_disconnect_resp_st
          (some pkt)).status = Status.fatal 82 ∧
        ((rpc.handle_disconnect_resp_st (some pkt)).rpc.handle_disconnect_resp_st
          (some pkt)).rpc = (rpc.handle_disconnect_resp_st (some pkt)).rpc) ∧
    (∀ w : SmWorkItem,
      (rpc.handle_disconnect_req_st (some w)).status = Status.ok →
      ((rpc.handle_disconnect_req_st (some w)).rpc.handle_disconnect_req_st
          (some w)).status = Status.fatal 39 ∧
        ((rpc.handle_disconnect_req_st (some w)).rpc.handle_disconnect_req_st
          (some w)).rpc = (rpc.handle_disconnect_req_st (some w)).rpc) := by
  constructor
  · intro pkt hok
    obtain ⟨pkt1, session, hp, hacc⟩ := resp_ok_inv hok
    cases hp
    rw [resp_second_run hacc]
    exact ⟨rfl, rfl⟩
  · intro w hok
    obtain ⟨w1, pkt, session, hw, hacc⟩ := req_ok_inv hok
    cases hw
    rw [req_second_run hacc]
    exact ⟨rfl, rfl⟩

/-- Witness of C8: the response of session 2 delivered twice to `exClientRpc`, and the
request of session 1 delivered twice to `exServerRpc`. -/
theorem at_most_once_teardown_witness :
    ((exClientRpc.handle_disconnect_resp_st (some exRespPkt)).status = Status.ok ∧
      ((exClientRpc.handle_disconnect_resp_st (some exRespPkt)).rpc.handle_disconnect_resp_st
          (some exRespPkt)).status = Status.fatal 82 ∧
      ((exClientRpc.handle_disconnect_resp_st (some exRespPkt)).rpc.handle_disconnect_resp_st
          (some exRespPkt)).rpc = (exClientRpc.handle_disconnect_resp_st (some exRespPkt)).rpc) ∧
    ((exServerRpc.handle_disconnect_req_st (some exReqWi)).status = Status.ok ∧
      ((exServerRpc.handle_disconnect_req_st (some exReqWi)).rpc.handle_disconnect_req_st
          (some exReqWi)).status = Status.fatal 39 ∧
      ((exServerRpc.handle_disconnect_req_st (some exReqWi)).rpc.handle_disconnect_req_st
          (some exReqWi)).rpc = (exServerRpc.handle_disconnect_req_st (some exReqWi)).rpc) :=
  ⟨⟨rfl, (at_most_once_teardown exClientRpc).1 exRespPkt rfl⟩,
    ⟨rfl, (at_most_once_teardown exServerRpc).2 exReqWi rfl⟩⟩

/-- C9, request preconditions come before any write. When the server session number
of a disconnect request is out of range of the session table, or names an empty
entry, or names a client-role session, the request handler stops on a failed
assertion; the session table and the response queue, and indeed the whole endpoint,
are as before. -/
theorem req_preconditions_enforced (rpc : Rpc kSessionReqWindow) (w : SmWorkItem)
    (pkt : SessionMgmtPkt) (hpkt : w.sm_pkt = some pkt)
    (hbad : ¬ pkt.server.session_num.val < rpc.session_vec.length ∨
      rpc.session_vec[pkt.server.session_num.val]? = some none ∨
      ∃ session, rpc.session_at pkt.server.session_num.val session ∧
        session.role = Role.kClient) :
    (rpc.handle_disconnect_req_st (some w)).failed ∧
    (rpc.handle_disconnect_req_st (some w)).rpc.session_vec = rpc.session_vec ∧
    (rpc.handle_disconnect_req_st (some w)).rpc.sm_resp_queue = rpc.sm_resp_queue ∧
    (rpc.handle_disconnect_req_st (some w)).rpc = rpc := by
  have hnot : (rpc.handle_disconnect_req_st (some w)).status ≠ Status.ok := by
    intro hok
    obtain ⟨w1, pkt1, session1, hw, hacc⟩ := req_ok_inv hok
    cases hw
    have hp := hacc.sm_pkt
    rw [hpkt] at hp
    cases hp
    rcases hbad with hrange | hempty | ⟨session, hlive, hrole⟩
    · exact hrange ((session_at_iff _ _ _).mp hacc.live).1
    · have hl := hacc.live
      unfold Rpc.session_at at hl
      rw [hempty] at hl
      cases hl
    · have hs := session_at_unique hlive hacc.live
      subst hs
      have hr := hacc.role
      rw [hrole] at hr
      cases hr
  obtain ⟨hfail, hrpc⟩ := req_not_ok_unchanged hnot
  refine ⟨hfail, ?_, ?_, hrpc⟩
  · rw [hrpc]
  · rw [hrpc]

/-- Witness of C9: a request naming session 9 of a table of length 2, a request naming
the empty entry 0, and a request naming the client-role session 2 of `exClientRpc`. -/
theorem req_preconditions_enforced_witness :
    (¬ exOutOfRangeReqPkt.server.session_num.val < exServerRpc.session_vec.length ∧
      (exServerRpc.handle_disconnect_req_st (some ⟨some 1, some exOutOfRangeReqPkt⟩)).failed ∧
      (exServerRpc.handle_disconnect_req_st
        (some ⟨some 1, some exOutOfRangeReqPkt⟩)).rpc = exServerRpc) ∧
    (exServerRpc.session_vec[exEmptyEntryReqPkt.server.session_num.val]? = some none ∧
      (exServerRpc.handle_disconnect_req_st (some ⟨some 1, some exEmptyEntryReqPkt⟩)).failed ∧
      (exServerRpc.handle_disconnect_req_st
        (some ⟨some 1, some exEmptyEntryReqPkt⟩)).rpc = exServerRpc) ∧
    (exClientRpc.session_at exClientRoleReqPkt.server.session_num.val exClientSession ∧
      exClientSession.role = Role.kClient ∧
      (exClientRpc.handle_disconnect_req_st (some ⟨some 1, some exClientRoleReqPkt⟩)).failed ∧
      (exClientRpc.handle_disconnect_req_st
        (some ⟨some 1, some exClientRoleReqPkt⟩)).rpc = exClientRpc) :=
  have h1 := req_preconditions_enforced exServerRpc ⟨some 1, some exOutOfRangeReqPkt⟩
    exOutOfRangeReqPkt rfl (Or.inl (by decide))
  have h2 := req_preconditions_enforced exServerRpc ⟨some 1, some exEmptyEntryReqPkt⟩
    exEmptyEntryReqPkt rfl (Or.inr (Or.inl rfl))
  have h3 := req_preconditions_enforced exClientRpc ⟨some 1, some exClientRoleReqPkt⟩
    exClientRoleReqPkt rfl (Or.inr (Or.inr ⟨exClientSession, rfl, rfl⟩))
  ⟨⟨by decide, h1.1, h1.2.2.2⟩, ⟨rfl, h2.1, h2.2.2.2⟩, ⟨rfl, rfl, h3.1, h3.2.2.2⟩⟩

/-- C10, response handling is all or nothing. The response handler completes the
transition if and only if the packet is a disconnect response with `kNoError`, its
client session number is in range and names a non-empty entry, and that session is
client-role, in state `kDisconnectInProgress`, has `sm_api_req_pending` set and has
the client and server identity records of the packet. Completing the transition means:
the handler returns; the endpoint it leaves is the initial one with the addressed
entry emptied and, unless callbacks are disabled for the session, one callback
invocation added, which saw the session still in the table with its pending flag
cleared (line 91) and its state `kDisconnected` (line 93); nothing else has changed.
The handler returns only under these conditions (the fields of `RespAccepted`), and in
every other case it stops on a failed assertion with the endpoint exactly as before:
table, session state, pending flag, callback invocations. -/
theorem resp_all_or_nothing (rpc : Rpc kSessionReqWindow) (pkt : SessionMgmtPkt) :
    ((∃ session, rpc.session_at pkt.client.session_num.val session ∧
        (rpc.handle_disconnect_resp_st (some pkt)).status = Status.ok ∧
        (rpc.handle_disconnect_resp_st (some pkt)).rpc =
          { rpc with
            session_vec := rpc.session_vec.set pkt.client.session_num.val none
            sm_handler_calls :=
              rpc.sm_handler_calls ++
                (if session.client_info.sm_callbacks_disabled = true then []
                else [⟨session.local_session_num, SessionMgmtEventType.kDisconnected,
                  SessionMgmtErrType.kNoError, rpc.context,
                  rpc.session_vec.set pkt.client.session_num.val
                    (some session.disconnected)⟩]) } ∧
        (rpc.session_vec.set pkt.client.session_num.val
          (some session.disconnected))[pkt.client.session_num.val]? =
            some (some session.disconnected) ∧
        session.disconnected.client_info.sm_api_req_pending = false ∧
        session.disconnected.state = SessionState.kDisconnected ∧
        (rpc.handle_disconnect_resp_st (some pkt)).rpc.session_vec[
          pkt.client.session_num.val]? = some none) ↔
      ∃ session,
        pkt.pkt_type = SessionMgmtPktType.kDisconnectResp ∧
        pkt.err_type = SessionMgmtErrType.kNoError ∧
        pkt.client.session_num.val < rpc.session_vec.length ∧
        rpc.session_vec[pkt.client.session_num.val]? = some (some session) ∧
        session.role = Role.kClient ∧
        session.state = SessionState.kDisconnectInProgress ∧
        session.client_info.sm_api_req_pending = true ∧
        session.client = pkt.client ∧
        session.server = pkt.server) ∧
    ((¬ ∃ session, RespAccepted rpc pkt session) →
      (rpc.handle_disconnect_resp_st (some pkt)).failed ∧
        (rpc.handle_disconnect_resp_st (some pkt)).rpc = rpc) ∧
    ((∃ session, RespAccepted rpc pkt session) ↔
      (rpc.handle_disconnect_resp_st (some pkt)).status = Status.ok) := by
  have hiff : (∃ session, RespAccepted rpc pkt session) ↔
      (rpc.handle_disconnect_resp_st (some pkt)).status = Status.ok := by
    constructor
    · rintro ⟨session, hacc⟩
      rw [resp_accepted_run hacc, disconnect_resp_commit_eq]
    · intro hok
      obtain ⟨pkt1, session, hp, hacc⟩ := resp_ok_inv hok
      cases hp
      exact ⟨session, hacc⟩
  refine ⟨?_, ?_, hiff⟩
  · constructor
    · rintro ⟨_, _, hok, _⟩
      obtain ⟨session, hacc⟩ := hiff.mpr hok
      exact ⟨session, hacc.pkt_type, hacc.err_type, ((session_at_iff _ _ _).mp hacc.live).1,
        hacc.live, hacc.role, hacc.state, hacc.pending, hacc.client, hacc.server⟩
    · rintro ⟨session, htype, herr, hlt, hlive, hrole, hstate, hpending, hclient, hserver⟩
      have hacc : RespAccepted rpc pkt session :=
        { pkt_type := htype
          err_type := herr
          live := hlive
          role := hrole
          state := hstate
          pending := hpending
          client := hclient
          server := hserver }
      refine ⟨session, hlive, hiff.mp ⟨session, hacc⟩, ?_, List.getElem?_set_self hlt,
        rfl, rfl, ?_⟩
      · rw [resp_accepted_run hacc, disconnect_resp_commit_eq]
        cases hd : session.client_info.sm_callbacks_disabled <;>
          simp [Rpc.bury_session_st, Rpc.store_session, Rpc.session_mgmt_handler,
            List.set_set]
      · rw [resp_ok_table hacc]
        exact List.getElem?_set_self hlt
  · intro hno
    apply resp_not_ok_unchanged
    intro hok
    exact hno (hiff.mpr hok)

/-- Witness of C10: the response completes the transition on `exClientRpc`, whose
session 2 meets every precondition and has callbacks enabled, so that the added
invocation shows the session as the handler left it; it is refused by
`exConnectingRpc`, whose session 2 is not in state `kDisconnectInProgress`. -/
theorem resp_all_or_nothing_witness :
    (∃ session, exClientRpc.session_at exRespPkt.client.session_num.val session ∧
      (exClientRpc.handle_disconnect_resp_st (some exRespPkt)).status = Status.ok ∧
      (exClientRpc.handle_disconnect_resp_st (some exRespPkt)).rpc =
        { exClientRpc with
          session_vec := exClientRpc.session_vec.set exRespPkt.client.session_num.val none
          sm_handler_calls :=
            exClientRpc.sm_handler_calls ++
              (if session.client_info.sm_callbacks_disabled = true then []
              else [⟨session.local_session_num, SessionMgmtEventType.kDisconnected,
                SessionMgmtErrType.kNoError, exClientRpc.context,
                exClientRpc.session_vec.set exRespPkt.client.session_num.val
                  (some session.disconnected)⟩]) } ∧
      (exClientRpc.session_vec.set exRespPkt.client.session_num.val
        (some session.disconnected))[exRespPkt.client.session_num.val]? =
          some (some session.disconnected) ∧
      session.disconnected.client_info.sm_api_req_pending = false ∧
      session.disconnected.state = SessionState.kDisconnected ∧
      (exClientRpc.handle_disconnect_resp_st (some exRespPkt)).rpc.session_vec[
        exRespPkt.client.session_num.val]? = some none) ∧
    ((exClientRpc.handle_disconnect_resp_st (some exRespPkt)).rpc.sm_handler_calls.map
        (fun call => call.observed.map (Option.map fun session =>
          (session.state, session.client_info.sm_api_req_pending))) =
      [[none, none, some (SessionState.kDisconnected, false)]]) ∧
    ((¬ ∃ session, RespAccepted exConnectingRpc exRespPkt session) ∧
      (exConnectingRpc.handle_disconnect_resp_st (some exRespPkt)).failed ∧
      (exConnectingRpc.handle_disconnect_resp_st (some exRespPkt)).rpc = exConnectingRpc) :=
  have hno : ¬ ∃ session, RespAccepted exConnectingRpc exRespPkt session :=
    fun ⟨_, hacc⟩ => by
      have hs := session_at_unique hacc.live
        (rfl : exConnectingRpc.session_at exRespPkt.client.session_num.val
          exConnectingSession)
      have hst := hacc.state
      rw [hs] at hst
      cases hst
  ⟨(resp_all_or_nothing exClientRpc exRespPkt).1.mpr
      ⟨exClientSession, rfl, rfl, by decide, rfl, rfl, rfl, rfl, rfl, rfl⟩,
    rfl,
    ⟨hno, (resp_all_or_nothing exConnectingRpc exRespPkt).2.1 hno⟩⟩

/-- C11, destination check on requests. When the server `rpc_id` of a disconnect
request differs from the endpoint's `rpc_id`, or its server host name differs from the
endpoint's, the request handler stops on a failed assertion before the first access to
the session table (line 36): the failing line is 26 or 27 when the work item has a
peer and the packet is a disconnect request, and the status is the same whatever table
the endpoint holds, even one with a live server session matching the packet. The
table and the response queue, and indeed the whole endpoint, are as before. -/
theorem destination_check (rpc : Rpc kSessionReqWindow) (w : SmWorkItem)
    (pkt : SessionMgmtPkt) (hpkt : w.sm_pkt = some pkt)
    (hdst : pkt.server.rpc_id ≠ rpc.rpc_id ∨ pkt.server.hostname ≠ rpc.hostname) :
    (∃ line, (rpc.handle_disconnect_req_st (some w)).status = Status.fatal line ∧
      line < 36 ∧
      (w.epeer ≠ none → pkt.pkt_type = SessionMgmtPktType.kDisconnectReq →
        line = 26 ∨ line = 27)) ∧
    (∀ session_vec : List (Option (Session kSessionReqWindow)),
      ({ rpc with session_vec := session_vec }.handle_disconnect_req_st (some w)).status =
        (rpc.handle_disconnect_req_st (some w)).status) ∧
    (rpc.handle_disconnect_req_st (some w)).rpc.session_vec = rpc.session_vec ∧
    (rpc.handle_disconnect_req_st (some w)).rpc.sm_resp_queue = rpc.sm_resp_queue ∧
    (rpc.handle_disconnect_req_st (some w)).rpc = rpc := by
  refine ⟨?_, ?_, ?_, ?_, ?_⟩
  · rw [req_wrong_destination_run hpkt hdst]
    refine ⟨_, rfl, ?_, ?_⟩
    · split
      · decide
      · split
        · decide
        · split <;> decide
    · intro hepeer htype
      rw [if_neg hepeer, if_neg (not_not.mpr htype)]
      split
      · exact Or.inl rfl
      · exact Or.inr rfl
  · intro session_vec
    have hdst2 : pkt.server.rpc_id ≠ ({ rpc with session_vec := session_vec } :
        Rpc kSessionReqWindow).rpc_id ∨
        pkt.server.hostname ≠ ({ rpc with session_vec := session_vec } :
          Rpc kSessionReqWindow).hostname := hdst
    rw [req_wrong_destination_run hpkt hdst, req_wrong_destination_run hpkt hdst2]
  · rw [req_wrong_destination_run hpkt hdst]
  · rw [req_wrong_destination_run hpkt hdst]
  · rw [req_wrong_destination_run hpkt hdst]

/-- Witness of C11: the request of session 1 matches the live server session held by
`exOtherIdRpc` and by `exOtherHostRpc`, but names endpoint 3 on host "S". -/
theorem destination_check_witness :
    (exReqPkt.server.rpc_id ≠ exOtherIdRpc.rpc_id ∧
      exOtherIdRpc.session_at exReqPkt.server.session_num.val exServerSession ∧
      exServerSession.server = exReqPkt.server ∧
      exServerSession.client = exReqPkt.client ∧
      (exOtherIdRpc.handle_disconnect_req_st (some exReqWi)).status = Status.fatal 26 ∧
      (exOtherIdRpc.handle_disconnect_req_st (some exReqWi)).rpc = exOtherIdRpc) ∧
    (exReqPkt.server.hostname ≠ exOtherHostRpc.hostname ∧
      exOtherHostRpc.session_at exReqPkt.server.session_num.val exServerSession ∧
      (exOtherHostRpc.handle_disconnect_req_st (some exReqWi)).status = Status.fatal 27 ∧
      (exOtherHostRpc.handle_disconnect_req_st (some exReqWi)).rpc = exOtherHostRpc) :=
  ⟨⟨by decide, rfl, rfl, rfl, rfl,
      (destination_check exOtherIdRpc exReqWi exReqPkt rfl (Or.inl (by decide))).2.2.2.2⟩,
    ⟨by decide, rfl, rfl,
      (destination_check exOtherHostRpc exReqWi exReqPkt rfl (Or.inr (by decide))).2.2.2.2⟩⟩

/-- C12, frame of a teardown. On every run of the request handler or of the response
handler that returns, the session table keeps its length, the entry at the addressed
session number becomes empty (it is not removed), and every other entry is the one
that was there before, at the same index. -/
theorem teardown_frame (rpc : Rpc kSessionReqWindow) (pkt : SessionMgmtPkt) :
    (∀ w : SmWorkItem, w.sm_pkt = some pkt →
      (rpc.handle_disconnect_req_st (some w)).status = Status.ok →
      (rpc.handle_disconnect_req_st (some w)).rpc.session_vec.length =
        rpc.session_vec.length ∧
      (rpc.handle_disconnect_req_st (some w)).rpc.session_vec[
        pkt.server.session_num.val]? = some none ∧
      ∀ i, i ≠ pkt.server.session_num.val →
        (rpc.handle_disconnect_req_st (some w)).rpc.session_vec[i]? =
          rpc.session_vec[i]?) ∧
    ((rpc.handle_disconnect_resp_st (some pkt)).status = Status.ok →
      (rpc.handle_disconnect_resp_st (some pkt)).rpc.session_vec.length =
        rpc.session_vec.length ∧
      (rpc.handle_disconnect_resp_st (some pkt)).rpc.session_vec[
        pkt.client.session_num.val]? = some none ∧
      ∀ i, i ≠ pkt.client.session_num.val →
        (rpc.handle_disconnect_resp_st (some pkt)).rpc.session_vec[i]? =
          rpc.session_vec[i]?) := by
  constructor
  · intro w hpkt hok
    obtain ⟨w1, pkt1, session, hw, hacc⟩ := req_ok_inv hok
    cases hw
    have hp := hacc.sm_pkt
    rw [hpkt] at hp
    cases hp
    rw [req_ok_table hacc]
    exact set_none_frame _ ((session_at_iff _ _ _).mp hacc.live).1
  · intro hok
    obtain ⟨pkt1, session, hp, hacc⟩ := resp_ok_inv hok
    cases hp
    rw [resp_ok_table hacc]
    exact set_none_frame _ ((session_at_iff _ _ _).mp hacc.live).1

/-- Witness of C12: the teardown of session 1 of `exServerRpc` and of session 2 of
`exClientRpc`; the other entries of both tables are as before. -/
theorem teardown_frame_witness :
    ((exServerRpc.handle_disconnect_req_st (some exReqWi)).status = Status.ok ∧
      (exServerRpc.handle_disconnect_req_st (some exReqWi)).rpc.session_vec.length =
        exServerRpc.session_vec.length ∧
      (exServerRpc.handle_disconnect_req_st (some exReqWi)).rpc.session_vec[
        exReqPkt.server.session_num.val]? = some none ∧
      ∀ i, i ≠ exReqPkt.server.session_num.val →
        (exServerRpc.handle_disconnect_req_st (some exReqWi)).rpc.session_vec[i]? =
          exServerRpc.session_vec[i]?) ∧
    ((exClientRpc.handle_disconnect_resp_st (some exRespPkt)).status = Status.ok ∧
      (exClientRpc.handle_disconnect_resp_st (some exRespPkt)).rpc.session_vec.length =
        exClientRpc.session_vec.length ∧
      (exClientRpc.handle_disconnect_resp_st (some exRespPkt)).rpc.session_vec[
        exRespPkt.client.session_num.val]? = some none ∧
      ∀ i, i ≠ exRespPkt.client.session_num.val →
        (exClientRpc.handle_disconnect_resp_st (some exRespPkt)).rpc.session_vec[i]? =
          exClientRpc.session_vec[i]?) :=
  ⟨⟨rfl, (teardown_frame exServerRpc exReqPkt).1 exReqWi rfl rfl⟩,
    ⟨rfl, (teardown_frame exClientRpc exRespPkt).2 rfl⟩⟩

/-- C13, the callback names the session the packet addressed. In an endpoint where
every non-empty table entry at index `i` records `local_session_num = i`, every
callback invocation that a run of the response handler adds passes a session number
equal to the packet's `client.session_num`, and that number is the index of the table
entry the run has emptied. -/
theorem callback_names_addressed_session (rpc : Rpc kSessionReqWindow)
    (pkt : SessionMgmtPkt)
    (hinv : ∀ i session, rpc.session_at i session → session.local_session_num.val = i) :
    ∃ calls, (rpc.handle_disconnect_resp_st (some pkt)).rpc.sm_handler_calls =
        rpc.sm_handler_calls ++ calls ∧
      ∀ call ∈ calls, call.session_num = pkt.client.session_num ∧
        (rpc.handle_disconnect_resp_st (some pkt)).rpc.session_vec =
          rpc.session_vec.set call.session_num.val none ∧
        (rpc.handle_disconnect_resp_st (some pkt)).rpc.session_vec[
          call.session_num.val]? = some none := by
  by_cases hok : (rpc.handle_disconnect_resp_st (some pkt)).status = Status.ok
  · obtain ⟨pkt1, session, hp, hacc⟩ := resp_ok_inv hok
    cases hp
    have hlt := ((session_at_iff _ _ _).mp hacc.live).1
    have hnum : session.local_session_num = pkt.client.session_num :=
      Fin.ext (hinv _ _ hacc.live)
    refine ⟨_, resp_ok_calls hacc, ?_⟩
    intro call hcall
    cases hd : session.client_info.sm_callbacks_disabled
    · rw [hd] at hcall
      simp only [Bool.false_eq_true, if_false, List.mem_singleton] at hcall
      subst hcall
      refine ⟨hnum, ?_, ?_⟩
      · rw [resp_ok_table hacc]
        exact congrArg (fun k : uint16_t => rpc.session_vec.set k.val none) hnum.symm
      · rw [resp_ok_table hacc]
        show (rpc.session_vec.set pkt.client.session_num.val none)[
          session.local_session_num.val]? = some none
        rw [hnum]
        exact List.getElem?_set_self hlt
    · rw [hd] at hcall
      simp at hcall
  · refine ⟨[], ?_, ?_⟩
    · rw [(resp_not_ok_unchanged hok).2]
      simp
    · intro call hcall
      cases hcall

/-- Witness of C13: the only session of `exClientRpc` sits at index 2 and records
`local_session_num = 2`; the run on its disconnect response adds one callback
invocation. -/
theorem callback_names_addressed_session_witness :
    (∀ i session, exClientRpc.session_at i session → session.local_session_num.val = i) ∧
    (exClientRpc.handle_disconnect_resp_st (some exRespPkt)).rpc.sm_handler_calls.length
      = 1 ∧
    ∃ calls, (exClientRpc.handle_disconnect_resp_st (some exRespPkt)).rpc.sm_handler_calls =
        exClientRpc.sm_handler_calls ++ calls ∧
      ∀ call ∈ calls, call.session_num = exRespPkt.client.session_num ∧
        (exClientRpc.handle_disconnect_resp_st (some exRespPkt)).rpc.session_vec =
          exClientRpc.session_vec.set call.session_num.val none ∧
        (exClientRpc.handle_disconnect_resp_st (some exRespPkt)).rpc.session_vec[
          call.session_num.val]? = some none :=
  have hinv : ∀ i session, exClientRpc.session_at i session →
      session.local_session_num.val = i := by
    intro i session h
    unfold Rpc.session_at exClientRpc at h
    match i, h with
    | 0, h => simp at h
    | 1, h => simp at h
    | 2, h =>
      simp at h
      subst h
      rfl
    | n + 3, h => simp at h
  ⟨hinv, rfl, callback_names_addressed_session exClientRpc exRespPkt hinv⟩

/-- C14, the server side is never notified. On every run of the request handler,
whether it returns or stops on a failed assertion, the callback invocations are the
ones that were there before, and every entry of the session table is either the one
that was there before or empty: every session of the resulting table is a session of
the initial table at the same index, with the state and the pending flag it had. -/
theorem server_never_notified (rpc : Rpc kSessionReqWindow) (wi : Option SmWorkItem) :
    (rpc.handle_disconnect_req_st wi).rpc.sm_handler_calls = rpc.sm_handler_calls ∧
    (∀ i : Nat, (rpc.handle_disconnect_req_st wi).rpc.session_vec[i]? = rpc.session_vec[i]? ∨
      (rpc.handle_disconnect_req_st wi).rpc.session_vec[i]? = some none) ∧
    ∀ i session, (rpc.handle_disconnect_req_st wi).rpc.session_at i session →
      rpc.session_at i session := by
  have hentries : (rpc.handle_disconnect_req_st wi).rpc.sm_handler_calls =
        rpc.sm_handler_calls ∧
      ∀ i : Nat, (rpc.handle_disconnect_req_st wi).rpc.session_vec[i]? = rpc.session_vec[i]? ∨
        (rpc.handle_disconnect_req_st wi).rpc.session_vec[i]? = some none := by
    by_cases hok : (rpc.handle_disconnect_req_st wi).status = Status.ok
    · obtain ⟨w, pkt, session, hw, hacc⟩ := req_ok_inv hok
      cases hw
      have hframe := set_none_frame rpc.session_vec ((session_at_iff _ _ _).mp hacc.live).1
      refine ⟨?_, ?_⟩
      · rw [req_accepted_run hacc]
        rfl
      · intro i
        rw [req_ok_table hacc]
        by_cases hi : i = pkt.server.session_num.val
        · subst hi
          exact Or.inr hframe.2.1
        · exact Or.inl (hframe.2.2 i hi)
    · rw [(req_not_ok_unchanged hok).2]
      exact ⟨rfl, fun _ => Or.inl rfl⟩
  refine ⟨hentries.1, hentries.2, ?_⟩
  intro i session hat
  unfold Rpc.session_at at hat ⊢
  rcases hentries.2 i with hsame | hempty
  · rw [← hsame]
    exact hat
  · rw [hempty] at hat
    cases hat

/-- Witness of C14: a run that returns, on `exServerRpc`, and a run that stops on a
failed assertion, on `exBusyRpc`; the busy session is still there, unchanged. -/
theorem server_never_notified_witness :
    ((exServerRpc.handle_disconnect_req_st (some exReqWi)).status = Status.ok ∧
      (exServerRpc.handle_disconnect_req_st (some exReqWi)).rpc.sm_handler_calls =
        exServerRpc.sm_handler_calls) ∧
    ((exBusyRpc.handle_disconnect_req_st (some exReqWi)).status = Status.fatal 51 ∧
      (exBusyRpc.handle_disconnect_req_st (some exReqWi)).rpc.sm_handler_calls =
        exBusyRpc.sm_handler_calls ∧
      exBusyRpc.session_at 1 exBusySession) :=
  ⟨⟨rfl, (server_never_notified exServerRpc (some exReqWi)).1⟩,
    ⟨rfl, (server_never_notified exBusyRpc (some exReqWi)).1,
      (server_never_notified exBusyRpc (some exReqWi)).2.2 1 exBusySession rfl⟩⟩

end ERpc
